import Mathlib

/-! # crud_app: validation and service orchestration

A shallow embedding of `service/user_validator.go` and `service/user.go`
together with the interface `repository.UserRepo` they are written against,
of the queries `List` and `Exists` of `repository/user.go` over a table of rows,
and of the update and delete handlers of `api/user.go`.

Conventions of the embedding

* A Go `*dto.User` is an `Option dto.User` (`none` is the nil pointer).
* A Go `error` is an `Option GoError` (`none` is the nil error).
* A Go `[]dto.User` is a `Slice dto.User` (`none` is the nil slice, which Go
  tells apart from an empty one).
* A Go `string` is a Lean `String` (well-formed UTF-8); the builtin `len` of a
  string is its number of bytes.
* `uint` is `Nat`, `int` is `Int`; the code only compares them with constants.
* Interface values (`repository.UserRepo`, `service.UserValidator`) are records
  of methods over an explicit store `σ`: a method takes the store and returns
  its results together with the next store.  The `context.Context` argument is
  only handed on and is left out.
-/

/-! ## Go runtime values -/

/-- Error values: `errorString` is what `errors.New` and a `fmt.Errorf`
without `%w` build, `wrapError` is what `fmt.Errorf` with one `%w` builds. -/
inductive GoError where
  | errorString (s : String)
  | wrapError (msg : String) (err : GoError)
  deriving DecidableEq, Repr

namespace GoError

/-- Method `Error()`: the message of the error. -/
def Error : GoError → String
  | errorString s => s
  | wrapError msg _ => msg

/-- Function `errors.Unwrap`. -/
def Unwrap : GoError → Option GoError
  | errorString _ => none
  | wrapError _ err => some err

end GoError

/-- A Go slice value: `none` is the nil slice. -/
abbrev Slice (α : Type) : Type := Option (List α)

/-- Builtin `len` on a string: the number of bytes. -/
def len (s : String) : Nat := s.utf8ByteSize

namespace unicode

/-- Go `unicode.IsSpace`: the Latin-1 cases and the `White_Space` table. -/
def IsSpace (r : Char) : Bool :=
  let n := r.toNat
  if n ≤ 0xFF then
    n == 0x09 || n == 0x0A || n == 0x0B || n == 0x0C || n == 0x0D || n == 0x20
      || n == 0x85 || n == 0xA0
  else
    n == 0x1680 || (0x2000 ≤ n && n ≤ 0x200A) || n == 0x2028 || n == 0x2029
      || n == 0x202F || n == 0x205F || n == 0x3000

end unicode

namespace strings

/-- Go `strings.TrimSpace` on well-formed UTF-8: the string without its
leading and trailing runes that satisfy `unicode.IsSpace`. -/
def TrimSpace (s : String) : String :=
  String.mk ((s.data.dropWhile unicode.IsSpace).rdropWhile unicode.IsSpace)

end strings

namespace fmt

/-- The call `fmt.Errorf(msg)` with a format that has no verb. -/
def Errorf (msg : String) : GoError := GoError.errorString msg

/-- The call `fmt.Errorf(format + "%w", err)` for a format whose only verb is a
final `%w`. -/
def ErrorfW (pre : String) (err : GoError) : GoError :=
  GoError.wrapError (pre ++ err.Error) err

/-- The verb `%d` on a `uint`. -/
def d (n : Nat) : String := toString n

end fmt

/-! ## dto -/

namespace dto

/-- The struct `dto.User`.  Times are abstract instants; `DeletedAt` is unset
for a live record. -/
structure User where
  ID : Nat
  Name : String
  Age : Int
  CreatedAt : Nat
  UpdatedAt : Nat
  DeletedAt : Option Nat
  deriving DecidableEq, Repr

end dto

/-! ## repository -/

namespace repository

/-- The interface `repository.UserRepo` over a store `σ`. -/
structure UserRepo (σ : Type) where
  List : σ → (Slice dto.User × Option GoError) × σ
  Create : Option dto.User → σ → (Option dto.User × Option GoError) × σ
  Update : Option dto.User → Nat → σ → Option GoError × σ
  Delete : Nat → σ → Option GoError × σ
  Exists : Nat → σ → (Bool × Option GoError) × σ

end repository

/-! ## service: the validator -/

namespace service

/-- The interface `service.UserValidator` over a store `σ`. -/
structure UserValidator (σ : Type) where
  Create : Option dto.User → σ → Option GoError × σ
  Update : Option dto.User → Nat → σ → Option GoError × σ
  Delete : Nat → σ → Option GoError × σ

/-- The struct `userValidator`. -/
structure userValidator (σ : Type) where
  userRepo : repository.UserRepo σ

/-- Method `validateName`. -/
def validateName (name : String) : Option GoError :=
  let name := strings.TrimSpace name
  if name = "" then
    some (fmt.Errorf "name is required")
  else if len name < 2 then
    some (fmt.Errorf "name must be at least 2 characters long")
  else if len name > 100 then
    some (fmt.Errorf "name cannot exceed 100 characters")
  else
    none

/-- Method `validateAge`. -/
def validateAge (age : Int) : Option GoError :=
  if age ≤ 0 then
    some (fmt.Errorf "age must be positive")
  else if age > 150 then
    some (fmt.Errorf "age seems unrealistic")
  else
    none

/-- Method `validateNewUserData`. -/
def validateNewUserData (user : Option dto.User) : Option GoError :=
  match user with
  | none => some (fmt.Errorf "user object cannot be nil")
  | some u =>
    match validateName u.Name with
    | some err => some err
    | none =>
      match validateAge u.Age with
      | some err => some err
      | none => none

/-- Method `validateUserExists`. -/
def userValidator.validateUserExists {σ : Type} (v : userValidator σ) (id : Nat) (st : σ) :
    Option GoError × σ :=
  match v.userRepo.Exists id st with
  | ((_, some err), st1) => (some (fmt.ErrorfW "failed to check user existence: " err), st1)
  | ((isThere, none), st1) =>
    if !isThere then
      (some (fmt.Errorf ("user with ID " ++ fmt.d id ++ " not found")), st1)
    else
      (none, st1)

/-- Method `userValidator.Create`. -/
def userValidator.Create {σ : Type} (_v : userValidator σ) (user : Option dto.User) (st : σ) :
    Option GoError × σ :=
  match validateNewUserData user with
  | some err => (some err, st)
  | none => (none, st)

/-- Method `userValidator.Update`. -/
def userValidator.Update {σ : Type} (v : userValidator σ) (user : Option dto.User) (id : Nat)
    (st : σ) : Option GoError × σ :=
  match validateNewUserData user with
  | some err => (some err, st)
  | none =>
    match v.validateUserExists id st with
    | (some err, st1) => (some err, st1)
    | (none, st1) => (none, st1)

/-- Method `userValidator.Delete`. -/
def userValidator.Delete {σ : Type} (v : userValidator σ) (id : Nat) (st : σ) :
    Option GoError × σ :=
  match v.validateUserExists id st with
  | (some err, st1) => (some err, st1)
  | (none, st1) => (none, st1)

/-- Constructor `NewUserValidator`: the validator as a `UserValidator`. -/
def NewUserValidator {σ : Type} (userRepo : repository.UserRepo σ) : UserValidator σ :=
  let v : userValidator σ := { userRepo := userRepo }
  { Create := v.Create, Update := v.Update, Delete := v.Delete }

end service

/-! ## service: the orchestrator -/

namespace service

/-- The struct `user`: the service behind the interface `service.User`. -/
structure user (σ : Type) where
  userValidator : UserValidator σ
  userRepo : repository.UserRepo σ

/-- Constructor `NewUser`. -/
def NewUser {σ : Type} (userValidator : UserValidator σ) (userRepo : repository.UserRepo σ) :
    user σ :=
  { userValidator := userValidator, userRepo := userRepo }

/-- Method `user.List`. -/
def user.List {σ : Type} (s : user σ) (st : σ) : (Slice dto.User × Option GoError) × σ :=
  match s.userRepo.List st with
  | ((_, some err), st1) => ((none, some err), st1)
  | ((users, none), st1) => ((users, none), st1)

/-- Method `user.Create`. -/
def user.Create {σ : Type} (s : user σ) (user : Option dto.User) (st : σ) :
    (Option dto.User × Option GoError) × σ :=
  match s.userValidator.Create user st with
  | (some err, st1) => ((none, some err), st1)
  | (none, st1) =>
    match s.userRepo.Create user st1 with
    | ((_, some err), st2) => ((none, some err), st2)
    | ((created, none), st2) => ((created, none), st2)

/-- Method `user.Update`. -/
def user.Update {σ : Type} (s : user σ) (user : Option dto.User) (id : Nat) (st : σ) :
    Option GoError × σ :=
  match s.userValidator.Update user id st with
  | (some err, st1) => (some err, st1)
  | (none, st1) =>
    match s.userRepo.Update user id st1 with
    | (some err, st2) => (some err, st2)
    | (none, st2) => (none, st2)

/-- Method `user.Delete`. -/
def user.Delete {σ : Type} (s : user σ) (id : Nat) (st : σ) : Option GoError × σ :=
  match s.userValidator.Delete id st with
  | (some err, st1) => (some err, st1)
  | (none, st1) =>
    match s.userRepo.Delete id st1 with
    | (some err, st2) => (some err, st2)
    | (none, st2) => (none, st2)

end service

/-! ## Test doubles

The tests of the service replace its two collaborators by generated doubles
that answer with prepared values and record the calls they receive.  The two
roles are kept apart here: `Recording` wraps any collaborator and appends each
call it receives to a log kept next to the store, `Return` answers every call
with a prepared value. -/

/-- A call received by a collaborator, with its arguments. -/
inductive Call where
  | validatorCreate (user : Option dto.User)
  | validatorUpdate (user : Option dto.User) (id : Nat)
  | validatorDelete (id : Nat)
  | repoList
  | repoCreate (user : Option dto.User)
  | repoUpdate (user : Option dto.User) (id : Nat)
  | repoDelete (id : Nat)
  | repoExists (id : Nat)
  deriving DecidableEq, Repr

namespace mock_repository

/-- The repository `r` with every call it receives appended to the log. -/
def Recording {σ : Type} (r : repository.UserRepo σ) : repository.UserRepo (σ × List Call) where
  List := fun st => ((r.List st.1).1, ((r.List st.1).2, st.2 ++ [Call.repoList]))
  Create := fun user st =>
    ((r.Create user st.1).1, ((r.Create user st.1).2, st.2 ++ [Call.repoCreate user]))
  Update := fun user id st =>
    ((r.Update user id st.1).1, ((r.Update user id st.1).2, st.2 ++ [Call.repoUpdate user id]))
  Delete := fun id st =>
    ((r.Delete id st.1).1, ((r.Delete id st.1).2, st.2 ++ [Call.repoDelete id]))
  Exists := fun id st =>
    ((r.Exists id st.1).1, ((r.Exists id st.1).2, st.2 ++ [Call.repoExists id]))

/-- A repository without a store that answers each method with a prepared value. -/
def Return (list : Slice dto.User × Option GoError) (create : Option dto.User × Option GoError)
    (update : Option GoError) (delete : Option GoError) (isThere : Bool × Option GoError) :
    repository.UserRepo Unit where
  List := fun st => (list, st)
  Create := fun _ st => (create, st)
  Update := fun _ _ st => (update, st)
  Delete := fun _ st => (delete, st)
  Exists := fun _ st => (isThere, st)

end mock_repository

namespace mock_service

/-- The validator `v` with every call it receives appended to the log. -/
def Recording {σ : Type} (v : service.UserValidator σ) : service.UserValidator (σ × List Call) where
  Create := fun user st =>
    ((v.Create user st.1).1, ((v.Create user st.1).2, st.2 ++ [Call.validatorCreate user]))
  Update := fun user id st =>
    ((v.Update user id st.1).1, ((v.Update user id st.1).2, st.2 ++ [Call.validatorUpdate user id]))
  Delete := fun id st =>
    ((v.Delete id st.1).1, ((v.Delete id st.1).2, st.2 ++ [Call.validatorDelete id]))

/-- A validator without a store that answers each method with a prepared value. -/
def Return (create update delete : Option GoError) : service.UserValidator Unit where
  Create := fun _ st => (create, st)
  Update := fun _ _ st => (update, st)
  Delete := fun _ st => (delete, st)

end mock_service

/-! ## Fixtures of `service/user_test.go` -/

/-- Fixture `testUser`. -/
def testUser : dto.User :=
  { ID := 0, Name := "John", Age := 10, CreatedAt := 0, UpdatedAt := 0, DeletedAt := none }

/-- Fixture `testUserWithID`. -/
def testUserWithID : dto.User := { testUser with ID := 1 }

/-- Fixture `testUserNameEmpty`. -/
def testUserNameEmpty : dto.User := { testUser with Name := "" }

/-- Fixture `testUserNameShort`. -/
def testUserNameShort : dto.User := { testUser with Name := "Jo" }

/-- Fixture `testUserAgeNeg`. -/
def testUserAgeNeg : dto.User := { testUser with Age := 0 }

/-- Fixture `testUserAgeUnreal`. -/
def testUserAgeUnreal : dto.User := { testUser with Age := 151 }

/-- Fixture `errRepo`. -/
def errRepo : GoError := GoError.errorString "repository error"

/-- The errors of the validator, by the names of the spec's taxonomy. -/
def NilInput : GoError := fmt.Errorf "user object cannot be nil"

/-- Error `name is required`. -/
def NameRequired : GoError := fmt.Errorf "name is required"

/-- Error `name must be at least 2 characters long`. -/
def NameTooShort : GoError := fmt.Errorf "name must be at least 2 characters long"

/-- Error `name cannot exceed 100 characters`. -/
def NameTooLong : GoError := fmt.Errorf "name cannot exceed 100 characters"

/-- Error `age must be positive`. -/
def AgeNotPositive : GoError := fmt.Errorf "age must be positive"

/-- Error `age seems unrealistic`. -/
def AgeUnrealistic : GoError := fmt.Errorf "age seems unrealistic"

/-- Error `user with ID <id> not found`. -/
def NotFound (id : Nat) : GoError := fmt.Errorf ("user with ID " ++ fmt.d id ++ " not found")

/-- A user whose name is "Jo" followed by 99 spaces: 101 bytes, 2 once trimmed. -/
def testUserNamePadded : dto.User := { testUser with Name := "Jo".pushn ' ' 99 }

/-- The bounds of the spec's data model on a written record: the name is non-empty, is
trimmed of surrounding whitespace and has length in [2,100]; the age is in [1,150]. -/
def withinDataModelBounds (u : dto.User) : Prop :=
  u.Name ≠ "" ∧ strings.TrimSpace u.Name = u.Name ∧ 2 ≤ len u.Name ∧ len u.Name ≤ 100 ∧
    1 ≤ u.Age ∧ u.Age ≤ 150

instance (u : dto.User) : Decidable (withinDataModelBounds u) := by
  unfold withinDataModelBounds; infer_instance

/-! ## gorm: the queries the repository builds

The table `users` is a list of rows in storage order.  A statement carries the
rows it selects and the error of the storage, if the storage fails. -/

namespace gorm

/-- The conditions the repository gives to `Where`: `deleted_at is null` and
`id = ?` with its argument. -/
inductive Cond where
  | deletedAtIsNull
  | idEq (id : Nat)
  deriving DecidableEq, Repr

/-- Whether a row satisfies a condition. -/
def Cond.holds : Cond → dto.User → Bool
  | Cond.deletedAtIsNull, row => row.DeletedAt.isNone
  | Cond.idEq id, row => row.ID == id

/-- The ordering relation of `Order("id")`: ascending identifiers. -/
def byID (a b : dto.User) : Prop := a.ID ≤ b.ID

instance : DecidableRel byID := fun a b => inferInstanceAs (Decidable (a.ID ≤ b.ID))

instance : IsTotal dto.User byID := ⟨fun a b => Nat.le_total a.ID b.ID⟩

instance : IsTrans dto.User byID := ⟨fun _ _ _ h1 h2 => Nat.le_trans h1 h2⟩

/-- A `*gorm.DB`: the rows of the table `users` that the statement selects, in
order, and the field `Error`. -/
structure DB where
  users : List dto.User
  Error : Option GoError
  deriving Repr

/-- Method `Table`: the statement over the named table; `users` is the only one. -/
def DB.Table (db : DB) (_name : String) : DB := db

/-- Method `Where`: keeps the rows that satisfy the condition. -/
def DB.Where (db : DB) (cond : Cond) : DB :=
  { db with users := db.users.filter cond.holds }

/-- Method `Order("id")`: the rows by ascending identifier. -/
def DB.Order (db : DB) : DB :=
  { db with users := db.users.insertionSort byID }

/-- Method `Find(&dest)`: on success `dest` becomes the selected rows, on
failure it is left as it was; the result is `dest` with the statement. -/
def DB.Find (db : DB) (dest : Slice dto.User) : Slice dto.User × DB :=
  match db.Error with
  | some _ => (dest, db)
  | none => (some db.users, db)

/-- Method `Count(&count)`: on success `count` becomes the number of selected
rows, on failure it is left as it was. -/
def DB.Count (db : DB) (count : Nat) : Nat × DB :=
  match db.Error with
  | some _ => (count, db)
  | none => (db.users.length, db)

end gorm

/-! ## repository: the queries of `userRepo` -/

namespace repository

/-- Constant `tableName`. -/
def tableName : String := "users"

/-- The struct `userRepo`. -/
structure userRepo where
  db : gorm.DB

/-- Constructor `NewUserRepo`. -/
def NewUserRepo (db : gorm.DB) : userRepo := { db := db }

/-- Method `userRepo.List`. -/
def userRepo.List (r : userRepo) : Slice dto.User × Option GoError :=
  let users : Slice dto.User := none
  let found := (((r.db.Table tableName).Where gorm.Cond.deletedAtIsNull).Order).Find users
  (found.1, found.2.Error)

/-- Method `userRepo.Exists`. -/
def userRepo.Exists (r : userRepo) (id : Nat) : Bool × Option GoError :=
  let counted :=
    (((r.db.Table tableName).Where (gorm.Cond.idEq id)).Where gorm.Cond.deletedAtIsNull).Count 0
  match counted.2.Error with
  | some err => (false, some err)
  | none => (decide (counted.1 > 0), none)

end repository

/-- Fixture `testUsers`, with a third record that is soft-deleted, out of order. -/
def testTable : List dto.User :=
  [{ testUser with ID := 3, Name := "Jack", DeletedAt := some 5 },
   { testUser with ID := 2, Name := "Jane" },
   { testUser with ID := 1 }]

/-! ## strconv -/

namespace strconv

/-- The field `Err` of a `*strconv.NumError`. -/
inductive NumError where
  | ErrSyntax
  | ErrRange
  deriving DecidableEq, Repr

/-- The constant `cutoff` of `ParseUint` for base 10: `maxUint64/10 + 1`. -/
def cutoff : Nat := (2 ^ 64 - 1) / 10 + 1

/-- The constant `maxVal` of `ParseUint` for bitSize 64. -/
def maxVal : Nat := 2 ^ 64 - 1

/-- Function `lower` of `strconv`: the byte with bit `0x20` set. -/
def lower (c : Nat) : Nat := c ||| 32

/-- The loop of `ParseUint` over the bytes of the string for base 10 (so that an
underscore is a syntax error) and bitSize 64; `n` is a `uint64`.  A rune outside
ASCII stands for its bytes, which are all above `z`. -/
def ParseUint.loop : List Char → Nat → Nat × Option NumError
  | [], n => (n, none)
  | c :: cs, n =>
    let digit : Option Nat :=
      if 48 ≤ c.toNat ∧ c.toNat ≤ 57 then some (c.toNat - 48)
      else if 97 ≤ lower c.toNat ∧ lower c.toNat ≤ 122 then some (lower c.toNat - 97 + 10)
      else none
    match digit with
    | none => (0, some NumError.ErrSyntax)
    | some d =>
      if d ≥ 10 then (0, some NumError.ErrSyntax)
      else if n ≥ cutoff then (maxVal, some NumError.ErrRange)
      else
        let n10 := (n * 10) % 2 ^ 64
        let n1 := (n10 + d) % 2 ^ 64
        if n1 < n10 ∨ n1 > maxVal then (maxVal, some NumError.ErrRange)
        else ParseUint.loop cs n1

/-- The call `strconv.ParseUint(s, 10, 64)`. -/
def ParseUint (s : String) : Nat × Option NumError :=
  if s = "" then (0, some NumError.ErrSyntax)
  else ParseUint.loop s.data 0

end strconv

/-- The conversion `uint(x)` of a `uint64` on a platform with 64-bit `uint`. -/
def uint (x : Nat) : Nat := x % 2 ^ 64

/-! ## service: the interface of the orchestrator -/

namespace service

/-- The interface `service.User` over a store `σ`. -/
structure User (σ : Type) where
  List : σ → (Slice dto.User × Option GoError) × σ
  Create : Option dto.User → σ → (Option dto.User × Option GoError) × σ
  Update : Option dto.User → Nat → σ → Option GoError × σ
  Delete : Nat → σ → Option GoError × σ

/-- The struct `user` as a `service.User`. -/
def user.asUser {σ : Type} (s : user σ) : User σ :=
  { List := s.List, Create := s.Create, Update := s.Update, Delete := s.Delete }

end service

/-! ## api -/

namespace api

/-- A value of type `any` as the handlers store it in `Result.Data`. -/
inductive Data where
  | null
  | users (list : Slice dto.User)
  | user (created : Option dto.User)
  deriving DecidableEq, Repr

/-- The struct `Result`. -/
structure Result where
  Data : Data
  Error : Option GoError
  deriving DecidableEq, Repr

/-- What a handler has written to its `http.ResponseWriter`: the status of
`WriteHeader` and the bytes of `Write`. -/
structure Response where
  status : Nat
  body : String
  deriving DecidableEq, Repr

/-- The part of an `*http.Request` the handlers read: the URL parameter `id`
and the body. -/
structure Request where
  id : String
  Body : String
  deriving DecidableEq, Repr

/-- Constant `http.StatusOK`. -/
def StatusOK : Nat := 200

/-- Constant `http.StatusInternalServerError`. -/
def StatusInternalServerError : Nat := 500

/-- Function `writeResponse`. -/
def writeResponse (result : Result) : Response :=
  match result.Error with
  | some err => { status := StatusInternalServerError, body := err.Error }
  | none => { status := StatusOK, body := "Success" }

/-- Function `updateUserHandler`; `decode` is `json.NewDecoder(r.Body).Decode(&user)`,
with `none` for a decoding error. -/
def updateUserHandler {σ : Type} (userService : service.User σ)
    (decode : String → Option dto.User) (r : Request) (st : σ) : Response × σ :=
  let parsed := strconv.ParseUint r.id
  match parsed.2 with
  | some _ => (writeResponse { Data := Data.null, Error := some (fmt.Errorf "id is not uuid") }, st)
  | none =>
    match decode r.Body with
    | none =>
      (writeResponse { Data := Data.null, Error := some (fmt.Errorf "invalid JSON format") }, st)
    | some user =>
      let updated := userService.Update (some user) (uint parsed.1) st
      (writeResponse { Data := Data.null, Error := updated.1 }, updated.2)

/-- Function `deleteUserHandler`. -/
def deleteUserHandler {σ : Type} (userService : service.User σ) (r : Request) (st : σ) :
    Response × σ :=
  let parsed := strconv.ParseUint r.id
  match parsed.2 with
  | some _ => (writeResponse { Data := Data.null, Error := some (fmt.Errorf "id is not uuid") }, st)
  | none =>
    let deleted := userService.Delete (uint parsed.1) st
    (writeResponse { Data := Data.null, Error := deleted.1 }, deleted.2)

end api

/-! ## Test doubles of the service -/

/-- A call received by the service, with its arguments. -/
inductive ServiceCall where
  | list
  | create (user : Option dto.User)
  | update (user : Option dto.User) (id : Nat)
  | delete (id : Nat)
  deriving DecidableEq, Repr

namespace mock_user

/-- The service `s` with every call it receives appended to the log. -/
def Recording {σ : Type} (s : service.User σ) : service.User (σ × List ServiceCall) where
  List := fun st => ((s.List st.1).1, ((s.List st.1).2, st.2 ++ [ServiceCall.list]))
  Create := fun user st =>
    ((s.Create user st.1).1, ((s.Create user st.1).2, st.2 ++ [ServiceCall.create user]))
  Update := fun user id st =>
    ((s.Update user id st.1).1, ((s.Update user id st.1).2, st.2 ++ [ServiceCall.update user id]))
  Delete := fun id st =>
    ((s.Delete id st.1).1, ((s.Delete id st.1).2, st.2 ++ [ServiceCall.delete id]))

/-- A service without a store that answers each method with a prepared value. -/
def Return (list : Slice dto.User × Option GoError) (create : Option dto.User × Option GoError)
    (update : Option GoError) (delete : Option GoError) : service.User Unit where
  List := fun st => (list, st)
  Create := fun _ st => (create, st)
  Update := fun _ _ st => (update, st)
  Delete := fun _ st => (delete, st)

end mock_user

/-- What the claim calls a non-negative integer: a non-empty string of decimal digits. -/
def isNonNegativeInteger (s : String) : Prop :=
  s.data ≠ [] ∧ ∀ c ∈ s.data, 48 ≤ c.toNat ∧ c.toNat ≤ 57

instance (s : String) : Decidable (isNonNegativeInteger s) := by
  unfold isNonNegativeInteger; infer_instance

/-- The value of digits read in base 10 after the value `n` of the digits before them. -/
def decimalFrom (n : Nat) (cs : List Char) : Nat :=
  cs.foldl (fun acc c => 10 * acc + (c.toNat - 48)) n

/-- The integer a string of decimal digits denotes. -/
def decimalValue (s : String) : Nat := decimalFrom 0 s.data

/-- A decoder standing for `json.Decode`: the body `ok` decodes to `testUser`, any other
body is malformed. -/
def testDecode (body : String) : Option dto.User :=
  if body = "ok" then some testUser else none

/-! ## Theorems -/

/-! ### Helper lemmas -/

theorem validateName_eq_none_iff (name : String) :
    service.validateName name = none ↔
      2 ≤ len (strings.TrimSpace name) ∧ len (strings.TrimSpace name) ≤ 100 := by
  unfold service.validateName
  by_cases h0 : strings.TrimSpace name = ""
  · simp [h0, show len "" = 0 from rfl]
  · by_cases h1 : len (strings.TrimSpace name) < 2
    · simp [h0, h1]
    · by_cases h2 : len (strings.TrimSpace name) > 100
      · simp [h0, h1, h2]
      · simp [h0, h1, h2]; omega

theorem validateAge_eq_none_iff (age : Int) :
    service.validateAge age = none ↔ 1 ≤ age ∧ age ≤ 150 := by
  unfold service.validateAge
  by_cases h0 : age ≤ 0
  · simp [h0]; omega
  · by_cases h1 : age > 150
    · simp [h0, h1]
    · simp [h0, h1]; omega

theorem validateNewUserData_some_eq_none_iff (u : dto.User) :
    service.validateNewUserData (some u) = none ↔
      service.validateName u.Name = none ∧ service.validateAge u.Age = none := by
  unfold service.validateNewUserData
  cases hn : service.validateName u.Name <;> cases ha : service.validateAge u.Age <;> simp [hn, ha]

/-! ### The validator's field rules -/

/-- C1: the create check is decided by the first violated rule, in the order nil user, name
empty, name shorter than 2, name longer than 100, age not positive, age above 150 (the name
being the trimmed name); it succeeds exactly for a non-nil user whose trimmed name has length
in [2,100] and whose age is in [1,150]; a failure carries exactly one of the six errors. -/
theorem validateNewUserData_first_violation :
    service.validateNewUserData none = some NilInput ∧
    (∀ u : dto.User, service.validateNewUserData (some u) =
      if strings.TrimSpace u.Name = "" then some NameRequired
      else if len (strings.TrimSpace u.Name) < 2 then some NameTooShort
      else if len (strings.TrimSpace u.Name) > 100 then some NameTooLong
      else if u.Age ≤ 0 then some AgeNotPositive
      else if u.Age > 150 then some AgeUnrealistic
      else none) ∧
    (∀ user : Option dto.User, service.validateNewUserData user = none ↔
      ∃ u, user = some u ∧ 2 ≤ len (strings.TrimSpace u.Name) ∧
        len (strings.TrimSpace u.Name) ≤ 100 ∧ 1 ≤ u.Age ∧ u.Age ≤ 150) ∧
    (∀ (user : Option dto.User) (e : GoError), service.validateNewUserData user = some e →
      e ∈ [NilInput, NameRequired, NameTooShort, NameTooLong, AgeNotPositive,
        AgeUnrealistic]) := by
  have hflat : ∀ u : dto.User, service.validateNewUserData (some u) =
      if strings.TrimSpace u.Name = "" then some NameRequired
      else if len (strings.TrimSpace u.Name) < 2 then some NameTooShort
      else if len (strings.TrimSpace u.Name) > 100 then some NameTooLong
      else if u.Age ≤ 0 then some AgeNotPositive
      else if u.Age > 150 then some AgeUnrealistic
      else none := by
    intro u
    unfold service.validateNewUserData service.validateName service.validateAge
    by_cases h0 : strings.TrimSpace u.Name = ""
    · simp [h0, NameRequired]
    · by_cases h1 : len (strings.TrimSpace u.Name) < 2
      · simp [h0, h1, NameTooShort]
      · by_cases h2 : len (strings.TrimSpace u.Name) > 100
        · simp [h0, h1, h2, NameTooLong]
        · by_cases h3 : u.Age ≤ 0
          · simp [h0, h1, h2, h3, AgeNotPositive]
          · by_cases h4 : u.Age > 150
            · simp [h0, h1, h2, h3, h4, AgeUnrealistic]
            · simp [h0, h1, h2, h3, h4]
  refine ⟨rfl, hflat, ?_, ?_⟩
  · intro user
    cases user with
    | none => simp [service.validateNewUserData]
    | some u =>
      rw [validateNewUserData_some_eq_none_iff, validateName_eq_none_iff, validateAge_eq_none_iff]
      constructor
      · rintro ⟨⟨a, b⟩, c, d⟩
        exact ⟨u, rfl, a, b, c, d⟩
      · rintro ⟨w, hw, a, b, c, d⟩
        cases hw
        exact ⟨⟨a, b⟩, c, d⟩
  · intro user e he
    cases user with
    | none =>
      have : e = NilInput := by
        simpa [service.validateNewUserData, NilInput, eq_comm] using he
      simp [this]
    | some u =>
      rw [hflat u] at he
      split_ifs at he <;> cases he <;> simp

/-- C2 (as stated, refuted): the create check accepts the user named "Jo" of age 10; it does
not answer with the name-too-short error, and the service with this validator reaches the
repository and returns its record. -/
theorem create_Jo_not_rejected :
    testUserNameShort.Name = "Jo" ∧ testUserNameShort.Age = 10 ∧
    service.validateNewUserData (some testUserNameShort) ≠ some NameTooShort ∧
    (service.NewUser
        (service.NewUserValidator (mock_repository.Recording
          (mock_repository.Return (none, none) (some testUserWithID, none) none none
            (true, none))))
        (mock_repository.Recording
          (mock_repository.Return (none, none) (some testUserWithID, none) none none
            (true, none)))).Create (some testUserNameShort) ((), [])
      = ((some testUserWithID, none), ((), [Call.repoCreate (some testUserNameShort)])) := by
  decide

/-- C2 (amended): the create check accepts the user named "Jo" of age 10, a name of two
characters not being too short, so service Create hands that user to the repository's Create
and returns what it returns (its record, or nil and its error); the name-too-short error is
what a one-character name such as "J" gets. -/
theorem create_Jo_accepted {σ : Type} (r : repository.UserRepo σ) (st : σ) (log : List Call) :
    service.validateNewUserData (some testUserNameShort) = none ∧
    (service.NewUser (service.NewUserValidator (mock_repository.Recording r))
        (mock_repository.Recording r)).Create (some testUserNameShort) (st, log)
      = ((match (r.Create (some testUserNameShort) st).1 with
          | (_, some err) => (none, some err)
          | (created, none) => (created, none)),
         ((r.Create (some testUserNameShort) st).2,
          log ++ [Call.repoCreate (some testUserNameShort)])) ∧
    service.validateNewUserData (some { testUserNameShort with Name := "J" })
      = some NameTooShort := by
  have hv : service.validateNewUserData (some testUserNameShort) = none := by decide
  refine ⟨hv, ?_, by decide⟩
  simp only [service.user.Create, service.NewUser, service.NewUserValidator,
    service.userValidator.Create, hv, mock_repository.Recording]
  rcases h : r.Create (some testUserNameShort) st with ⟨⟨created, err⟩, st1⟩
  cases err <;> simp

/-- C3 (as stated, refuted): for a user with an invalid (empty) name the age errors are not
what validation returns: with age 0 and with age 151 it answers with the name error. -/
theorem age_error_not_independent_of_name :
    ({ testUserNameEmpty with Age := 0 } : dto.User).Age ≤ 0 ∧
    service.validateNewUserData (some { testUserNameEmpty with Age := 0 }) = some NameRequired ∧
    service.validateNewUserData (some { testUserNameEmpty with Age := 0 })
      ≠ some AgeNotPositive ∧
    ({ testUserNameEmpty with Age := 151 } : dto.User).Age > 150 ∧
    service.validateNewUserData (some { testUserNameEmpty with Age := 151 })
      = some NameRequired ∧
    service.validateNewUserData (some { testUserNameEmpty with Age := 151 })
      ≠ some AgeUnrealistic := by
  decide

/-- C3 (amended): for every non-nil user whose name passes the name rules, age <= 0 makes
field validation fail with the age-not-positive error and age > 150 makes it fail with the
age-unrealistic error. -/
theorem age_error_when_name_valid (u : dto.User) (hname : service.validateName u.Name = none) :
    (u.Age ≤ 0 → service.validateNewUserData (some u) = some AgeNotPositive) ∧
    (u.Age > 150 → service.validateNewUserData (some u) = some AgeUnrealistic) := by
  constructor
  · intro h
    simp [service.validateNewUserData, hname, service.validateAge, h, AgeNotPositive]
  · intro h
    have h0 : ¬ u.Age ≤ 0 := by omega
    simp [service.validateNewUserData, hname, service.validateAge, h0, h, AgeUnrealistic]

/-- Witness of C3 (amended) at the fixtures `testUserAgeNeg` and `testUserAgeUnreal`. -/
theorem age_error_when_name_valid_witness :
    service.validateName testUserAgeNeg.Name = none ∧ testUserAgeNeg.Age ≤ 0 ∧
    service.validateNewUserData (some testUserAgeNeg) = some AgeNotPositive ∧
    testUserAgeUnreal.Age > 150 ∧
    service.validateNewUserData (some testUserAgeUnreal) = some AgeUnrealistic :=
  ⟨by decide, by decide,
    (age_error_when_name_valid testUserAgeNeg (by decide)).1 (by decide), by decide,
    (age_error_when_name_valid testUserAgeUnreal (by decide)).2 (by decide)⟩

/-! ### The validator and the repository -/

/-- C4: when field validation fails with `e`, the validator's Update returns `e`, as its
Create does, whatever the repository and its store are, and neither call reaches the
repository: store and call log are left as they were. -/
theorem validator_fields_before_existence {σ : Type} (r : repository.UserRepo σ)
    (user : Option dto.User) (id : Nat) (st : σ) (log : List Call) (e : GoError)
    (hfail : service.validateNewUserData user = some e) :
    (service.NewUserValidator (mock_repository.Recording r)).Update user id (st, log)
      = (some e, (st, log)) ∧
    (service.NewUserValidator (mock_repository.Recording r)).Create user (st, log)
      = (some e, (st, log)) ∧
    ((service.NewUserValidator (mock_repository.Recording r)).Update user id (st, log)).1
      = ((service.NewUserValidator (mock_repository.Recording r)).Create user (st, log)).1 := by
  simp [service.NewUserValidator, service.userValidator.Update, service.userValidator.Create,
    hfail]

/-- Witness of C4: the nil user against a repository holding the record and against one
missing it. -/
theorem validator_fields_before_existence_witness :
    service.validateNewUserData none = some NilInput ∧
    (service.NewUserValidator (mock_repository.Recording
        (mock_repository.Return (none, none) (none, none) none none (true, none)))).Update
      none 1 ((), []) = (some NilInput, ((), [])) ∧
    (service.NewUserValidator (mock_repository.Recording
        (mock_repository.Return (none, none) (none, none) none none (false, none)))).Update
      none 1 ((), []) = (some NilInput, ((), [])) :=
  ⟨by decide,
    (validator_fields_before_existence
      (mock_repository.Return (none, none) (none, none) none none (true, none))
      none 1 () [] NilInput (by decide)).1,
    (validator_fields_before_existence
      (mock_repository.Return (none, none) (none, none) none none (false, none))
      none 1 () [] NilInput (by decide)).1⟩

/-- C5: with the real validator in the service, when the repository's Exists answers false
without error, service Delete fails with the not-found error of that id after the single
repository call Exists, and service Update of a user that passes field validation fails with
the same error after that single call: the repository's Delete and Update are not called. -/
theorem service_not_found {σ : Type} (r : repository.UserRepo σ) (id : Nat) (st st1 : σ)
    (log : List Call) (hmissing : r.Exists id st = ((false, none), st1)) :
    (service.NewUser (service.NewUserValidator (mock_repository.Recording r))
        (mock_repository.Recording r)).Delete id (st, log)
      = (some (NotFound id), (st1, log ++ [Call.repoExists id])) ∧
    (∀ user : Option dto.User, service.validateNewUserData user = none →
      (service.NewUser (service.NewUserValidator (mock_repository.Recording r))
          (mock_repository.Recording r)).Update user id (st, log)
        = (some (NotFound id), (st1, log ++ [Call.repoExists id]))) ∧
    (NotFound id).Error = "user with ID " ++ toString id ++ " not found" := by
  refine ⟨?_, ?_, rfl⟩
  · simp [service.user.Delete, service.NewUser, service.NewUserValidator,
      service.userValidator.Delete, service.userValidator.validateUserExists,
      mock_repository.Recording, hmissing, NotFound]
  · intro user hvalid
    simp [service.user.Update, service.NewUser, service.NewUserValidator,
      service.userValidator.Update, service.userValidator.validateUserExists,
      mock_repository.Recording, hmissing, hvalid, NotFound]

/-- Witness of C5: the scenario `Update(id=999, Jane, 20)` and `Delete(999)` with no record
999; the message reads `user with ID 999 not found`. -/
theorem service_not_found_witness :
    (service.NewUser
        (service.NewUserValidator (mock_repository.Recording
          (mock_repository.Return (none, none) (none, none) none none (false, none))))
        (mock_repository.Recording
          (mock_repository.Return (none, none) (none, none) none none (false, none)))).Delete
      999 ((), [])
      = (some (GoError.errorString "user with ID 999 not found"), ((), [Call.repoExists 999])) ∧
    (service.NewUser
        (service.NewUserValidator (mock_repository.Recording
          (mock_repository.Return (none, none) (none, none) none none (false, none))))
        (mock_repository.Recording
          (mock_repository.Return (none, none) (none, none) none none (false, none)))).Update
      (some { testUser with Name := "Jane", Age := 20 }) 999 ((), [])
      = (some (GoError.errorString "user with ID 999 not found"),
          ((), [Call.repoExists 999])) :=
  ⟨(service_not_found
      (mock_repository.Return (none, none) (none, none) none none (false, none))
      999 () () [] rfl).1,
    (service_not_found
      (mock_repository.Return (none, none) (none, none) none none (false, none))
      999 () () [] rfl).2.1 (some { testUser with Name := "Jane", Age := 20 }) (by decide)⟩

/-! ### The orchestrator against arbitrary collaborators -/

/-- C6: for every validator and repository, when the validator's Create (Update, Delete)
returns an error `e`, service Create returns a nil record with `e` itself (service Update,
Delete return `e` itself), and the only call made is the validator's: no repository method
is called. -/
theorem service_validator_error_verbatim {σ : Type} (v : service.UserValidator σ)
    (r : repository.UserRepo σ) (user : Option dto.User) (id : Nat) (st st1 : σ)
    (log : List Call) (e : GoError) :
    (v.Create user st = (some e, st1) →
      (service.NewUser (mock_service.Recording v) (mock_repository.Recording r)).Create user
          (st, log)
        = ((none, some e), (st1, log ++ [Call.validatorCreate user]))) ∧
    (v.Update user id st = (some e, st1) →
      (service.NewUser (mock_service.Recording v) (mock_repository.Recording r)).Update user id
          (st, log)
        = (some e, (st1, log ++ [Call.validatorUpdate user id]))) ∧
    (v.Delete id st = (some e, st1) →
      (service.NewUser (mock_service.Recording v) (mock_repository.Recording r)).Delete id
          (st, log)
        = (some e, (st1, log ++ [Call.validatorDelete id]))) := by
  refine ⟨?_, ?_, ?_⟩ <;> intro h
  · simp [service.user.Create, service.NewUser, mock_service.Recording, h]
  · simp [service.user.Update, service.NewUser, mock_service.Recording, h]
  · simp [service.user.Delete, service.NewUser, mock_service.Recording, h]

/-- Witness of C6: the test cases `error name is required` of Create and Update and
`error repository exists` of Delete. -/
theorem service_validator_error_verbatim_witness :
    (service.NewUser (mock_service.Recording (mock_service.Return (some NameRequired)
          (some NameRequired) (some errRepo)))
        (mock_repository.Recording (mock_repository.Return (none, none)
          (some testUserWithID, none) none none (true, none)))).Create
        (some testUserNameEmpty) ((), [])
      = ((none, some NameRequired), ((), [Call.validatorCreate (some testUserNameEmpty)])) ∧
    (service.NewUser (mock_service.Recording (mock_service.Return (some NameRequired)
          (some NameRequired) (some errRepo)))
        (mock_repository.Recording (mock_repository.Return (none, none)
          (some testUserWithID, none) none none (true, none)))).Update
        (some testUserNameEmpty) 1 ((), [])
      = (some NameRequired, ((), [Call.validatorUpdate (some testUserNameEmpty) 1])) ∧
    (service.NewUser (mock_service.Recording (mock_service.Return (some NameRequired)
          (some NameRequired) (some errRepo)))
        (mock_repository.Recording (mock_repository.Return (none, none)
          (some testUserWithID, none) none none (true, none)))).Delete 1 ((), [])
      = (some errRepo, ((), [Call.validatorDelete 1])) :=
  ⟨(service_validator_error_verbatim
      (mock_service.Return (some NameRequired) (some NameRequired) (some errRepo))
      (mock_repository.Return (none, none) (some testUserWithID, none) none none (true, none))
      (some testUserNameEmpty) 1 () () [] NameRequired).1 rfl,
    (service_validator_error_verbatim
      (mock_service.Return (some NameRequired) (some NameRequired) (some errRepo))
      (mock_repository.Return (none, none) (some testUserWithID, none) none none (true, none))
      (some testUserNameEmpty) 1 () () [] NameRequired).2.1 rfl,
    (service_validator_error_verbatim
      (mock_service.Return (some NameRequired) (some NameRequired) (some errRepo))
      (mock_repository.Return (none, none) (some testUserWithID, none) none none (true, none))
      (some testUserNameEmpty) 1 () () [] errRepo).2.2 rfl⟩

/-- C7: for every validator and repository, when the validator succeeds, service Create,
Update and Delete make exactly the validator call followed by exactly one repository call of
the same kind, with the caller's user and the caller's id as arguments, and return what the
repository returned: Create the repository's record when it gave no error and nil with the
repository's error otherwise, Update and Delete the repository's error or nil. -/
theorem service_validate_then_persist {σ : Type} (v : service.UserValidator σ)
    (r : repository.UserRepo σ) (user : Option dto.User) (id : Nat) (st st1 : σ)
    (log : List Call) :
    (v.Create user st = (none, st1) →
      (∀ created st2, r.Create user st1 = ((created, none), st2) →
        (service.NewUser (mock_service.Recording v) (mock_repository.Recording r)).Create user
            (st, log)
          = ((created, none),
              (st2, log ++ [Call.validatorCreate user, Call.repoCreate user]))) ∧
      (∀ created e st2, r.Create user st1 = ((created, some e), st2) →
        (service.NewUser (mock_service.Recording v) (mock_repository.Recording r)).Create user
            (st, log)
          = ((none, some e),
              (st2, log ++ [Call.validatorCreate user, Call.repoCreate user])))) ∧
    (v.Update user id st = (none, st1) →
      (service.NewUser (mock_service.Recording v) (mock_repository.Recording r)).Update user id
          (st, log)
        = ((r.Update user id st1).1, ((r.Update user id st1).2,
            log ++ [Call.validatorUpdate user id, Call.repoUpdate user id]))) ∧
    (v.Delete id st = (none, st1) →
      (service.NewUser (mock_service.Recording v) (mock_repository.Recording r)).Delete id
          (st, log)
        = ((r.Delete id st1).1, ((r.Delete id st1).2,
            log ++ [Call.validatorDelete id, Call.repoDelete id]))) := by
  refine ⟨?_, ?_, ?_⟩ <;> intro h
  · constructor
    · intro created st2 hr
      simp [service.user.Create, service.NewUser, mock_service.Recording,
        mock_repository.Recording, h, hr]
    · intro created e st2 hr
      simp [service.user.Create, service.NewUser, mock_service.Recording,
        mock_repository.Recording, h, hr]
  · rcases hr : r.Update user id st1 with ⟨err, st2⟩
    cases err <;>
      simp [service.user.Update, service.NewUser, mock_service.Recording,
        mock_repository.Recording, h, hr]
  · rcases hr : r.Delete id st1 with ⟨err, st2⟩
    cases err <;>
      simp [service.user.Delete, service.NewUser, mock_service.Recording,
        mock_repository.Recording, h, hr]

/-- Witness of C7: the test cases `successful creation`, `error repository update` and
`successful deletion`; the id handed on is the caller's 7, not the ID 1 of the payload. -/
theorem service_validate_then_persist_witness :
    (service.NewUser (mock_service.Recording (mock_service.Return none none none))
        (mock_repository.Recording (mock_repository.Return (none, none)
          (some testUserWithID, none) (some errRepo) none (true, none)))).Create
        (some testUser) ((), [])
      = ((some testUserWithID, none),
          ((), [Call.validatorCreate (some testUser), Call.repoCreate (some testUser)])) ∧
    (service.NewUser (mock_service.Recording (mock_service.Return none none none))
        (mock_repository.Recording (mock_repository.Return (none, none)
          (some testUserWithID, none) (some errRepo) none (true, none)))).Update
        (some testUserWithID) 7 ((), [])
      = (some errRepo, ((), [Call.validatorUpdate (some testUserWithID) 7,
          Call.repoUpdate (some testUserWithID) 7])) ∧
    (service.NewUser (mock_service.Recording (mock_service.Return none none none))
        (mock_repository.Recording (mock_repository.Return (none, none)
          (some testUserWithID, none) (some errRepo) none (true, none)))).Delete 7 ((), [])
      = (none, ((), [Call.validatorDelete 7, Call.repoDelete 7])) :=
  ⟨((service_validate_then_persist (mock_service.Return none none none)
      (mock_repository.Return (none, none) (some testUserWithID, none) (some errRepo) none
        (true, none))
      (some testUser) 7 () () []).1 rfl).1 (some testUserWithID) () rfl,
    (service_validate_then_persist (mock_service.Return none none none)
      (mock_repository.Return (none, none) (some testUserWithID, none) (some errRepo) none
        (true, none))
      (some testUserWithID) 7 () () []).2.1 rfl,
    (service_validate_then_persist (mock_service.Return none none none)
      (mock_repository.Return (none, none) (some testUserWithID, none) (some errRepo) none
        (true, none))
      (some testUserWithID) 7 () () []).2.2 rfl⟩

/-- C8: service List makes the single repository call List and no validator call; a
collection the repository returns without error is returned as it is with no error (an empty
one as an empty one), and an error of the repository is returned as it is with a nil
collection. -/
theorem service_list_delegates {σ : Type} (v : service.UserValidator σ)
    (r : repository.UserRepo σ) (st st1 : σ) (log : List Call) :
    (∀ users : Slice dto.User, r.List st = ((users, none), st1) →
      (service.NewUser (mock_service.Recording v) (mock_repository.Recording r)).List (st, log)
        = ((users, none), (st1, log ++ [Call.repoList]))) ∧
    (r.List st = ((some [], none), st1) →
      (service.NewUser (mock_service.Recording v) (mock_repository.Recording r)).List (st, log)
        = ((some [], none), (st1, log ++ [Call.repoList]))) ∧
    (∀ (users : Slice dto.User) (e : GoError), r.List st = ((users, some e), st1) →
      (service.NewUser (mock_service.Recording v) (mock_repository.Recording r)).List (st, log)
        = ((none, some e), (st1, log ++ [Call.repoList]))) := by
  refine ⟨?_, ?_, ?_⟩
  · intro users h
    simp [service.user.List, service.NewUser, mock_repository.Recording, h]
  · intro h
    simp [service.user.List, service.NewUser, mock_repository.Recording, h]
  · intro users e h
    simp [service.user.List, service.NewUser, mock_repository.Recording, h]

/-- Witness of C8: the test cases `empty result` and `error repository list`. -/
theorem service_list_delegates_witness :
    (service.NewUser (mock_service.Recording (mock_service.Return none none none))
        (mock_repository.Recording (mock_repository.Return (some [], none) (none, none) none
          none (true, none)))).List ((), [])
      = ((some [], none), ((), [Call.repoList])) ∧
    (service.NewUser (mock_service.Recording (mock_service.Return none none none))
        (mock_repository.Recording (mock_repository.Return (none, some errRepo) (none, none)
          none none (true, none)))).List ((), [])
      = ((none, some errRepo), ((), [Call.repoList])) :=
  ⟨(service_list_delegates (mock_service.Return none none none)
      (mock_repository.Return (some [], none) (none, none) none none (true, none))
      () () []).2.1 rfl,
    (service_list_delegates (mock_service.Return none none none)
      (mock_repository.Return (none, some errRepo) (none, none) none none (true, none))
      () () []).2.2 none errRepo rfl⟩

/-! ### What reaches the repository -/

theorem utf8ByteSize_go_le_of_sublist {l1 l2 : List Char} (h : l1.Sublist l2) :
    String.utf8ByteSize.go l1 ≤ String.utf8ByteSize.go l2 := by
  induction h with
  | slnil => exact Nat.le_refl _
  | cons a _ ih => simp only [String.utf8ByteSize.go]; omega
  | cons₂ a _ ih => simp only [String.utf8ByteSize.go]; omega

theorem len_TrimSpace_le (s : String) : len (strings.TrimSpace s) ≤ len s := by
  cases s with
  | mk l =>
    show String.utf8ByteSize.go _ ≤ String.utf8ByteSize.go l
    exact utf8ByteSize_go_le_of_sublist
      ((List.rdropWhile_prefix _ _).sublist.trans (List.dropWhile_sublist _))

theorem bounds_of_validateNewUserData_eq_none {user : Option dto.User}
    (h : service.validateNewUserData user = none) :
    ∃ u, user = some u ∧ u.Name ≠ "" ∧ 2 ≤ len u.Name ∧
      2 ≤ len (strings.TrimSpace u.Name) ∧ len (strings.TrimSpace u.Name) ≤ 100 ∧
      1 ≤ u.Age ∧ u.Age ≤ 150 := by
  cases user with
  | none => simp [service.validateNewUserData] at h
  | some u =>
    rw [validateNewUserData_some_eq_none_iff, validateName_eq_none_iff,
      validateAge_eq_none_iff] at h
    obtain ⟨⟨a, b⟩, c, d⟩ := h
    have hle := len_TrimSpace_le u.Name
    refine ⟨u, rfl, ?_, by omega, a, b, c, d⟩
    intro hempty
    have hzero : len u.Name = 0 := by rw [hempty]; rfl
    omega

theorem service_create_log {σ : Type} (r : repository.UserRepo σ) (user : Option dto.User)
    (st : σ) (log : List Call) :
    ((service.NewUser (service.NewUserValidator (mock_repository.Recording r))
        (mock_repository.Recording r)).Create user (st, log)).2.2
      = if service.validateNewUserData user = none then log ++ [Call.repoCreate user]
        else log := by
  cases hv : service.validateNewUserData user with
  | some e =>
    simp [service.user.Create, service.NewUser, service.NewUserValidator,
      service.userValidator.Create, hv]
  | none =>
    rcases hr : r.Create user st with ⟨⟨created, err⟩, st1⟩
    cases err <;>
      simp [service.user.Create, service.NewUser, service.NewUserValidator,
        service.userValidator.Create, mock_repository.Recording, hv, hr]

theorem service_update_log {σ : Type} (r : repository.UserRepo σ) (user : Option dto.User)
    (id : Nat) (st : σ) (log : List Call) :
    ((service.NewUser (service.NewUserValidator (mock_repository.Recording r))
        (mock_repository.Recording r)).Update user id (st, log)).2.2
      = if service.validateNewUserData user = none then
          (if (r.Exists id st).1 = (true, none) then
            log ++ [Call.repoExists id, Call.repoUpdate user id]
          else log ++ [Call.repoExists id])
        else log := by
  cases hv : service.validateNewUserData user with
  | some e =>
    simp [service.user.Update, service.NewUser, service.NewUserValidator,
      service.userValidator.Update, hv]
  | none =>
    rcases he : r.Exists id st with ⟨⟨isThere, err⟩, st1⟩
    cases err with
    | some e =>
      simp [service.user.Update, service.NewUser, service.NewUserValidator,
        service.userValidator.Update, service.userValidator.validateUserExists,
        mock_repository.Recording, hv, he]
    | none =>
      cases isThere with
      | false =>
        simp [service.user.Update, service.NewUser, service.NewUserValidator,
          service.userValidator.Update, service.userValidator.validateUserExists,
          mock_repository.Recording, hv, he]
      | true =>
        rcases hu : r.Update user id st1 with ⟨err2, st2⟩
        cases err2 <;>
          simp [service.user.Update, service.NewUser, service.NewUserValidator,
            service.userValidator.Update, service.userValidator.validateUserExists,
            mock_repository.Recording, hv, he, hu]

/-- C9 (as stated, refuted): service Create and Update with the real validator hand the user
named "Jo" followed by 99 spaces to the repository as it came: its name has trailing
whitespace and 101 bytes, outside the data-model bounds. -/
theorem padded_name_reaches_repository :
    ((service.NewUser
        (service.NewUserValidator (mock_repository.Recording
          (mock_repository.Return (none, none) (some testUserWithID, none) none none
            (true, none))))
        (mock_repository.Recording
          (mock_repository.Return (none, none) (some testUserWithID, none) none none
            (true, none)))).Create (some testUserNamePadded) ((), [])).2.2
      = [Call.repoCreate (some testUserNamePadded)] ∧
    ((service.NewUser
        (service.NewUserValidator (mock_repository.Recording
          (mock_repository.Return (none, none) (some testUserWithID, none) none none
            (true, none))))
        (mock_repository.Recording
          (mock_repository.Return (none, none) (some testUserWithID, none) none none
            (true, none)))).Update (some testUserNamePadded) 1 ((), [])).2.2
      = [Call.repoExists 1, Call.repoUpdate (some testUserNamePadded) 1] ∧
    ¬ withinDataModelBounds testUserNamePadded ∧
    strings.TrimSpace testUserNamePadded.Name ≠ testUserNamePadded.Name ∧
    len testUserNamePadded.Name = 101 := by
  decide

/-- C9 (amended): whenever service Create or Update (with the real validator) hands a user to
the repository's Create or Update, it is the caller's user, non-nil, whose name is non-empty
and at least 2 long, whose name once trimmed of surrounding whitespace has length in [2,100],
and whose age is in [1,150]. -/
theorem handed_user_within_validated_bounds {σ : Type} (r : repository.UserRepo σ)
    (user x : Option dto.User) (id i : Nat) (st : σ)
    (hcall :
      Call.repoCreate x ∈
        ((service.NewUser (service.NewUserValidator (mock_repository.Recording r))
          (mock_repository.Recording r)).Create user (st, [])).2.2 ∨
      Call.repoUpdate x i ∈
        ((service.NewUser (service.NewUserValidator (mock_repository.Recording r))
          (mock_repository.Recording r)).Update user id (st, [])).2.2) :
    x = user ∧
    ∃ u, x = some u ∧ u.Name ≠ "" ∧ 2 ≤ len u.Name ∧
      2 ≤ len (strings.TrimSpace u.Name) ∧ len (strings.TrimSpace u.Name) ≤ 100 ∧
      1 ≤ u.Age ∧ u.Age ≤ 150 := by
  have key : service.validateNewUserData user = none ∧ x = user := by
    rcases hcall with h | h
    · rw [service_create_log] at h
      by_cases hv : service.validateNewUserData user = none
      · simp [hv] at h
        exact ⟨hv, h⟩
      · simp [hv] at h
    · rw [service_update_log] at h
      by_cases hv : service.validateNewUserData user = none
      · by_cases he : (r.Exists id st).1 = (true, none)
        · simp [hv, he] at h
          exact ⟨hv, h.1⟩
        · simp [hv, he] at h
      · simp [hv] at h
  obtain ⟨hv, hx⟩ := key
  subst hx
  exact ⟨rfl, bounds_of_validateNewUserData_eq_none hv⟩

/-- Witness of C9 (amended): the padded user handed to the repository's Create. -/
theorem handed_user_within_validated_bounds_witness :
    Call.repoCreate (some testUserNamePadded) ∈
      ((service.NewUser
        (service.NewUserValidator (mock_repository.Recording
          (mock_repository.Return (none, none) (some testUserWithID, none) none none
            (true, none))))
        (mock_repository.Recording
          (mock_repository.Return (none, none) (some testUserWithID, none) none none
            (true, none)))).Create (some testUserNamePadded) ((), [])).2.2 ∧
    ∃ u, some testUserNamePadded = some u ∧ u.Name ≠ "" ∧ 2 ≤ len u.Name ∧
      2 ≤ len (strings.TrimSpace u.Name) ∧ len (strings.TrimSpace u.Name) ≤ 100 ∧
      1 ≤ u.Age ∧ u.Age ≤ 150 :=
  ⟨by decide,
    (handed_user_within_validated_bounds
      (mock_repository.Return (none, none) (some testUserWithID, none) none none (true, none))
      (some testUserNamePadded) (some testUserNamePadded) 1 1 () (Or.inl (by decide))).2⟩

/-! ### Storage errors of the existence check -/

/-- C10 (as stated, refuted): when the existence check fails with the error
`repository error`, service Update and Delete with the real validator return an error whose
message is `failed to check user existence: repository error`, not the message of the
repository's error. -/
theorem existence_error_message_prefixed :
    ((service.NewUser
        (service.NewUserValidator (mock_repository.Recording
          (mock_repository.Return (none, none) (none, none) none none (false, some errRepo))))
        (mock_repository.Recording
          (mock_repository.Return (none, none) (none, none) none none
            (false, some errRepo)))).Update (some testUser) 1 ((), [])).1.map GoError.Error
      = some "failed to check user existence: repository error" ∧
    ((service.NewUser
        (service.NewUserValidator (mock_repository.Recording
          (mock_repository.Return (none, none) (none, none) none none (false, some errRepo))))
        (mock_repository.Recording
          (mock_repository.Return (none, none) (none, none) none none
            (false, some errRepo)))).Update (some testUser) 1 ((), [])).1.map GoError.Error
      ≠ some errRepo.Error ∧
    ((service.NewUser
        (service.NewUserValidator (mock_repository.Recording
          (mock_repository.Return (none, none) (none, none) none none (false, some errRepo))))
        (mock_repository.Recording
          (mock_repository.Return (none, none) (none, none) none none
            (false, some errRepo)))).Delete 1 ((), [])).1.map GoError.Error
      ≠ some errRepo.Error := by
  decide

/-- C10 (amended): for every user that passes field validation and every id, when the
repository's existence check fails with an error `e`, service Update and service Delete
(with the real validator) return an error that wraps `e` and whose message is
`failed to check user existence: ` followed by the message of `e`, after the single
repository call Exists: the repository's Update and Delete are not called. -/
theorem existence_error_wrapped {σ : Type} (r : repository.UserRepo σ)
    (user : Option dto.User) (id : Nat) (st st1 : σ) (log : List Call) (isThere : Bool)
    (e : GoError) (hvalid : service.validateNewUserData user = none)
    (hfail : r.Exists id st = ((isThere, some e), st1)) :
    (service.NewUser (service.NewUserValidator (mock_repository.Recording r))
        (mock_repository.Recording r)).Update user id (st, log)
      = (some (fmt.ErrorfW "failed to check user existence: " e),
          (st1, log ++ [Call.repoExists id])) ∧
    (service.NewUser (service.NewUserValidator (mock_repository.Recording r))
        (mock_repository.Recording r)).Delete id (st, log)
      = (some (fmt.ErrorfW "failed to check user existence: " e),
          (st1, log ++ [Call.repoExists id])) ∧
    (fmt.ErrorfW "failed to check user existence: " e).Error
      = "failed to check user existence: " ++ e.Error ∧
    (fmt.ErrorfW "failed to check user existence: " e).Unwrap = some e := by
  refine ⟨?_, ?_, rfl, rfl⟩
  · simp [service.user.Update, service.NewUser, service.NewUserValidator,
      service.userValidator.Update, service.userValidator.validateUserExists,
      mock_repository.Recording, hvalid, hfail]
  · simp [service.user.Delete, service.NewUser, service.NewUserValidator,
      service.userValidator.Delete, service.userValidator.validateUserExists,
      mock_repository.Recording, hfail]

/-- Witness of C10 (amended): the fixture `testUser` and the error `errRepo`. -/
theorem existence_error_wrapped_witness :
    service.validateNewUserData (some testUser) = none ∧
    (service.NewUser
        (service.NewUserValidator (mock_repository.Recording
          (mock_repository.Return (none, none) (none, none) none none (false, some errRepo))))
        (mock_repository.Recording
          (mock_repository.Return (none, none) (none, none) none none
            (false, some errRepo)))).Update (some testUser) 1 ((), [])
      = (some (GoError.wrapError "failed to check user existence: repository error" errRepo),
          ((), [Call.repoExists 1])) :=
  ⟨by decide,
    (existence_error_wrapped
      (mock_repository.Return (none, none) (none, none) none none (false, some errRepo))
      (some testUser) 1 () () [] false errRepo (by decide) rfl).1⟩

/-! ### The repository's queries over the table -/

theorem mem_live_rows (rows : List dto.User) (row : dto.User) :
    row ∈ (rows.filter gorm.Cond.deletedAtIsNull.holds).insertionSort gorm.byID ↔
      row ∈ rows ∧ row.DeletedAt = none := by
  rw [(List.perm_insertionSort gorm.byID _).mem_iff, List.mem_filter]
  simp [gorm.Cond.holds, Option.isNone_iff_eq_none]

theorem live_rows_ids_nodup (rows : List dto.User) (huniq : (rows.map dto.User.ID).Nodup) :
    (((rows.filter gorm.Cond.deletedAtIsNull.holds).insertionSort gorm.byID).map
      dto.User.ID).Nodup :=
  (((List.perm_insertionSort gorm.byID _).map dto.User.ID).nodup_iff).2
    (huniq.sublist ((List.filter_sublist _).map dto.User.ID))

theorem live_rows_sorted (rows : List dto.User) (huniq : (rows.map dto.User.ID).Nodup) :
    ((rows.filter gorm.Cond.deletedAtIsNull.holds).insertionSort gorm.byID).Sorted
      (fun a b => a.ID < b.ID) := by
  have hs := List.sorted_insertionSort gorm.byID (rows.filter gorm.Cond.deletedAtIsNull.holds)
  have hne := List.pairwise_map.1 (live_rows_ids_nodup rows huniq)
  exact (hs.and hne).imp (fun h => Nat.lt_of_le_of_ne h.1 h.2)

theorem userRepo_Exists_eq (db : gorm.DB) (hok : db.Error = none) (id : Nat) :
    (repository.NewUserRepo db).Exists id
      = (decide (∃ row ∈ db.users, row.ID = id ∧ row.DeletedAt = none), none) := by
  simp only [repository.userRepo.Exists, repository.NewUserRepo, gorm.DB.Table, gorm.DB.Where,
    gorm.DB.Count, hok]
  congr 1
  rw [decide_eq_decide, gt_iff_lt, List.length_pos_iff_exists_mem]
  simp only [List.mem_filter, gorm.Cond.holds, Option.isNone_iff_eq_none, beq_iff_eq]
  constructor
  · rintro ⟨a, ⟨⟨h1, h2⟩, h3⟩⟩
    exact ⟨a, h1, h2, h3⟩
  · rintro ⟨a, h1, h2, h3⟩
    exact ⟨a, ⟨⟨h1, h2⟩, h3⟩⟩

theorem userRepo_List_eq (db : gorm.DB) (hok : db.Error = none) :
    (repository.NewUserRepo db).List
      = (some ((db.users.filter gorm.Cond.deletedAtIsNull.holds).insertionSort gorm.byID),
          none) := by
  simp [repository.userRepo.List, repository.NewUserRepo, gorm.DB.Table, gorm.DB.Where,
    gorm.DB.Order, gorm.DB.Find, hok]

/-- C11: over a table of rows with unique ids, when the storage answers, the repository's
Exists(id) is true exactly when a row with that id has deleted_at unset, and the repository's
List returns exactly the rows with deleted_at unset, each once, by ascending id; a
soft-deleted row is in neither. -/
theorem repository_live_rows_only (db : gorm.DB) (hok : db.Error = none)
    (huniq : (db.users.map dto.User.ID).Nodup) :
    (∀ id : Nat, (repository.NewUserRepo db).Exists id
      = (decide (∃ row ∈ db.users, row.ID = id ∧ row.DeletedAt = none), none)) ∧
    (∃ l : List dto.User, (repository.NewUserRepo db).List = (some l, none) ∧
      (∀ row, row ∈ l ↔ row ∈ db.users ∧ row.DeletedAt = none) ∧
      l.Nodup ∧ l.Sorted (fun a b => a.ID < b.ID)) ∧
    (∀ row ∈ db.users, row.DeletedAt ≠ none →
      (repository.NewUserRepo db).Exists row.ID = (false, none) ∧
      ∀ l, (repository.NewUserRepo db).List.1 = some l → row ∉ l) := by
  refine ⟨userRepo_Exists_eq db hok, ⟨_, userRepo_List_eq db hok, mem_live_rows db.users,
    (live_rows_ids_nodup db.users huniq).of_map _, live_rows_sorted db.users huniq⟩, ?_⟩
  intro row hrow hdel
  constructor
  · rw [userRepo_Exists_eq db hok]
    congr 1
    rw [decide_eq_false_iff_not]
    rintro ⟨other, hother, hid, hlive⟩
    have hsame : other = row :=
      List.inj_on_of_nodup_map huniq hother hrow hid
    exact hdel (hsame ▸ hlive)
  · intro l hl
    rw [userRepo_List_eq db hok] at hl
    cases hl
    rw [mem_live_rows]
    exact fun h => hdel h.2

/-- Witness of C11: the two live records of `testUsers` next to a soft-deleted third one. -/
theorem repository_live_rows_only_witness :
    (repository.NewUserRepo { users := testTable, Error := none }).Exists 3 = (false, none) ∧
    (repository.NewUserRepo { users := testTable, Error := none }).Exists 2 = (true, none) ∧
    (repository.NewUserRepo { users := testTable, Error := none }).Exists 4 = (false, none) ∧
    (repository.NewUserRepo { users := testTable, Error := none }).List
      = (some [{ testUser with ID := 1 }, { testUser with ID := 2, Name := "Jane" }], none) ∧
    ∃ l : List dto.User,
      (repository.NewUserRepo { users := testTable, Error := none }).List = (some l, none) ∧
      (∀ row, row ∈ l ↔ row ∈ testTable ∧ row.DeletedAt = none) ∧
      l.Nodup ∧ l.Sorted (fun a b => a.ID < b.ID) :=
  ⟨by decide, by decide, by decide, by decide,
    (repository_live_rows_only { users := testTable, Error := none } rfl (by decide)).2.1⟩

/-! ### The identifier of the update and delete handlers -/

theorem le_decimalFrom (cs : List Char) : ∀ n : Nat, n ≤ decimalFrom n cs := by
  induction cs with
  | nil => intro n; exact Nat.le_refl n
  | cons c cs ih =>
    intro n
    have h := ih (10 * n + (c.toNat - 48))
    simp only [decimalFrom, List.foldl_cons] at h ⊢
    omega

theorem decimalFrom_cons (n : Nat) (c : Char) (cs : List Char) :
    decimalFrom n (c :: cs) = decimalFrom (10 * n + (c.toNat - 48)) cs := rfl

theorem ParseUint_loop_cons_digit (c : Char) (cs : List Char) (n : Nat)
    (hc : 48 ≤ c.toNat ∧ c.toNat ≤ 57) :
    strconv.ParseUint.loop (c :: cs) n =
      if n ≥ strconv.cutoff then (strconv.maxVal, some strconv.NumError.ErrRange)
      else if ((n * 10) % 2 ^ 64 + (c.toNat - 48)) % 2 ^ 64 < (n * 10) % 2 ^ 64 ∨
          ((n * 10) % 2 ^ 64 + (c.toNat - 48)) % 2 ^ 64 > strconv.maxVal then
        (strconv.maxVal, some strconv.NumError.ErrRange)
      else strconv.ParseUint.loop cs (((n * 10) % 2 ^ 64 + (c.toNat - 48)) % 2 ^ 64) := by
  have hd : ¬ (c.toNat - 48 ≥ 10) := by omega
  simp only [strconv.ParseUint.loop, hc, and_self, if_true, hd, if_false]

theorem ParseUint_loop_cons_other (c : Char) (cs : List Char) (n : Nat)
    (hc : ¬ (48 ≤ c.toNat ∧ c.toNat ≤ 57)) :
    strconv.ParseUint.loop (c :: cs) n = (0, some strconv.NumError.ErrSyntax) := by
  by_cases hl : 97 ≤ strconv.lower c.toNat ∧ strconv.lower c.toNat ≤ 122
  · have hd : strconv.lower c.toNat - 97 + 10 ≥ 10 := by omega
    simp only [strconv.ParseUint.loop, hc, if_false, hl, and_self, if_true, hd]
  · simp only [strconv.ParseUint.loop, hc, if_false, hl]

theorem cutoff_eq : strconv.cutoff = 1844674407370955162 := by decide

theorem maxVal_eq : strconv.maxVal = 18446744073709551615 := by decide

theorem ParseUint_loop_spec (cs : List Char) : ∀ n : Nat, n < 2 ^ 64 →
    (((∀ c ∈ cs, 48 ≤ c.toNat ∧ c.toNat ≤ 57) ∧ decimalFrom n cs < 2 ^ 64) →
      strconv.ParseUint.loop cs n = (decimalFrom n cs, none)) ∧
    (¬ ((∀ c ∈ cs, 48 ≤ c.toNat ∧ c.toNat ≤ 57) ∧ decimalFrom n cs < 2 ^ 64) →
      ∃ e, (strconv.ParseUint.loop cs n).2 = some e) := by
  induction cs with
  | nil =>
    intro n hn
    constructor
    · intro _; rfl
    · intro h
      exact absurd ⟨by simp, hn⟩ h
  | cons c cs ih =>
    intro n hn
    by_cases hc : 48 ≤ c.toNat ∧ c.toNat ≤ 57
    · rw [ParseUint_loop_cons_digit c cs n hc, decimalFrom_cons, cutoff_eq, maxVal_eq]
      have hge := le_decimalFrom cs (10 * n + (c.toNat - 48))
      by_cases hcut : n ≥ 1844674407370955162
      · rw [if_pos hcut]
        constructor
        · rintro ⟨_, hlt⟩; omega
        · intro _; exact ⟨_, rfl⟩
      · rw [if_neg hcut]
        by_cases hov : 10 * n + (c.toNat - 48) < 2 ^ 64
        · have hn1 : ((n * 10) % 2 ^ 64 + (c.toNat - 48)) % 2 ^ 64 = 10 * n + (c.toNat - 48) := by
            omega
          have hn10 : (n * 10) % 2 ^ 64 = 10 * n := by omega
          rw [hn1, hn10]
          have hno : ¬ (10 * n + (c.toNat - 48) < 10 * n ∨
              10 * n + (c.toNat - 48) > 18446744073709551615) := by omega
          rw [if_neg hno]
          have := ih (10 * n + (c.toNat - 48)) hov
          constructor
          · rintro ⟨hall, hlt⟩
            exact this.1 ⟨fun x hx => hall x (List.mem_cons_of_mem _ hx), hlt⟩
          · intro hnot
            apply this.2
            rintro ⟨hall, hlt⟩
            apply hnot
            refine ⟨?_, hlt⟩
            intro x hx
            rcases List.mem_cons.1 hx with rfl | hx
            · exact hc
            · exact hall x hx
        · have hyes : ((n * 10) % 2 ^ 64 + (c.toNat - 48)) % 2 ^ 64 < (n * 10) % 2 ^ 64 ∨
              ((n * 10) % 2 ^ 64 + (c.toNat - 48)) % 2 ^ 64 > 18446744073709551615 := by omega
          rw [if_pos hyes]
          constructor
          · rintro ⟨_, hlt⟩; omega
          · intro _; exact ⟨_, rfl⟩
    · rw [ParseUint_loop_cons_other c cs n hc]
      constructor
      · rintro ⟨hall, _⟩
        exact absurd (hall c (List.mem_cons_self _ _)) hc
      · intro _; exact ⟨_, rfl⟩

theorem ParseUint_spec (s : String) :
    ((isNonNegativeInteger s ∧ decimalValue s < 2 ^ 64) →
      strconv.ParseUint s = (decimalValue s, none)) ∧
    (¬ (isNonNegativeInteger s ∧ decimalValue s < 2 ^ 64) →
      ∃ e, (strconv.ParseUint s).2 = some e) := by
  have hloop := ParseUint_loop_spec s.data 0 (by norm_num)
  by_cases hempty : s = ""
  · subst hempty
    constructor
    · rintro ⟨⟨hne, _⟩, _⟩
      exact absurd rfl hne
    · intro _; exact ⟨_, rfl⟩
  · have hdata : s.data ≠ [] := by
      intro h
      apply hempty
      cases s
      simp_all
    simp only [strconv.ParseUint, hempty, if_false]
    constructor
    · rintro ⟨⟨_, hall⟩, hlt⟩
      exact hloop.1 ⟨hall, hlt⟩
    · intro hnot
      apply hloop.2
      rintro ⟨hall, hlt⟩
      exact hnot ⟨⟨hdata, hall⟩, hlt⟩

/-- C12 (as stated, refuted): the segment `18446744073709551616` is a non-negative integer,
yet the delete handler answers it with `id is not uuid` and status 500 without calling the
service; and for the segment `7` with a body that does not decode, the update handler does
not call the service either. -/
theorem identifier_out_of_range_rejected :
    isNonNegativeInteger "18446744073709551616" ∧
    decimalValue "18446744073709551616" = 2 ^ 64 ∧
    api.deleteUserHandler
        (mock_user.Recording (mock_user.Return (none, none) (none, none) none none))
        { id := "18446744073709551616", Body := "" } ((), [])
      = ({ status := 500, body := "id is not uuid" }, ((), [])) ∧
    isNonNegativeInteger "7" ∧
    testDecode "bad" = none ∧
    api.updateUserHandler
        (mock_user.Recording (mock_user.Return (none, none) (none, none) none none))
        testDecode { id := "7", Body := "bad" } ((), [])
      = ({ status := 500, body := "invalid JSON format" }, ((), [])) := by
  decide

/-- C12 (amended): for every {id} segment given to the update and delete handlers: if the
segment is not a non-empty string of decimal digits denoting a number below 2^64, the handler
answers `id is not uuid` with status 500 and does not call the service, whatever the body; if
it is such a string denoting n, the delete handler calls the service once with id = n and
writes the service's outcome, and the update handler does the same with the decoded user
when the body decodes, and answers `invalid JSON format` with status 500 without calling the
service when it does not. -/
theorem handler_identifier_check {σ : Type} (svc : service.User σ)
    (decode : String → Option dto.User) (r : api.Request) (st : σ) (log : List ServiceCall) :
    (¬ (isNonNegativeInteger r.id ∧ decimalValue r.id < 2 ^ 64) →
      api.updateUserHandler (mock_user.Recording svc) decode r (st, log)
        = ({ status := 500, body := "id is not uuid" }, (st, log)) ∧
      api.deleteUserHandler (mock_user.Recording svc) r (st, log)
        = ({ status := 500, body := "id is not uuid" }, (st, log))) ∧
    ((isNonNegativeInteger r.id ∧ decimalValue r.id < 2 ^ 64) →
      api.deleteUserHandler (mock_user.Recording svc) r (st, log)
        = (api.writeResponse
            { Data := api.Data.null, Error := (svc.Delete (decimalValue r.id) st).1 },
           ((svc.Delete (decimalValue r.id) st).2,
            log ++ [ServiceCall.delete (decimalValue r.id)])) ∧
      (∀ u : dto.User, decode r.Body = some u →
        api.updateUserHandler (mock_user.Recording svc) decode r (st, log)
          = (api.writeResponse
              { Data := api.Data.null, Error := (svc.Update (some u) (decimalValue r.id) st).1 },
             ((svc.Update (some u) (decimalValue r.id) st).2,
              log ++ [ServiceCall.update (some u) (decimalValue r.id)]))) ∧
      (decode r.Body = none →
        api.updateUserHandler (mock_user.Recording svc) decode r (st, log)
          = ({ status := 500, body := "invalid JSON format" }, (st, log)))) := by
  constructor
  · intro hbad
    obtain ⟨e, he⟩ := (ParseUint_spec r.id).2 hbad
    constructor
    · simp only [api.updateUserHandler, he]
      rfl
    · simp only [api.deleteUserHandler, he]
      rfl
  · intro hgood
    have hparse := (ParseUint_spec r.id).1 hgood
    have hu : uint (decimalValue r.id) = decimalValue r.id := Nat.mod_eq_of_lt hgood.2
    refine ⟨?_, ?_, ?_⟩
    · simp only [api.deleteUserHandler, hparse, hu, mock_user.Recording]
    · intro u hdec
      simp only [api.updateUserHandler, hparse, hdec, hu, mock_user.Recording]
    · intro hdec
      simp only [api.updateUserHandler, hparse, hdec]
      rfl

/-- Witness of C12 (amended): the segments `abc` and `12` given to both handlers. -/
theorem handler_identifier_check_witness :
    ¬ (isNonNegativeInteger "abc" ∧ decimalValue "abc" < 2 ^ 64) ∧
    api.updateUserHandler
        (mock_user.Recording (mock_user.Return (none, none) (none, none) none (some errRepo)))
        testDecode { id := "abc", Body := "ok" } ((), [])
      = ({ status := 500, body := "id is not uuid" }, ((), [])) ∧
    (isNonNegativeInteger "12" ∧ decimalValue "12" < 2 ^ 64) ∧
    api.deleteUserHandler
        (mock_user.Recording (mock_user.Return (none, none) (none, none) none (some errRepo)))
        { id := "12", Body := "ok" } ((), [])
      = ({ status := 500, body := "repository error" }, ((), [ServiceCall.delete 12])) ∧
    api.updateUserHandler
        (mock_user.Recording (mock_user.Return (none, none) (none, none) none (some errRepo)))
        testDecode { id := "12", Body := "ok" } ((), [])
      = ({ status := 200, body := "Success" }, ((), [ServiceCall.update (some testUser) 12])) :=
  ⟨by decide,
    ((handler_identifier_check
      (mock_user.Return (none, none) (none, none) none (some errRepo))
      testDecode { id := "abc", Body := "ok" } () []).1 (by decide)).1,
    by decide,
    ((handler_identifier_check
      (mock_user.Return (none, none) (none, none) none (some errRepo))
      testDecode { id := "12", Body := "ok" } () []).2 (by decide)).1,
    ((handler_identifier_check
      (mock_user.Return (none, none) (none, none) none (some errRepo))
      testDecode { id := "12", Body := "ok" } () []).2 (by decide)).2.1 testUser (by decide)⟩

/-! ### Bytes and characters -/

/-- C13: the length compared with 2 and 100 is the number of bytes of the trimmed name: the
one-character name `é` (2 bytes) passes validation with a valid age, and the name of 51
characters `é` (102 bytes) fails with `name cannot exceed 100 characters`. -/
theorem name_length_counts_bytes :
    (∀ name : String, len (strings.TrimSpace name) = (strings.TrimSpace name).utf8ByteSize) ∧
    "é".data = [Char.ofNat 233] ∧ "é".length = 1 ∧ len (strings.TrimSpace "é") = 2 ∧
    service.validateNewUserData (some { testUser with Name := "é" }) = none ∧
    ("".pushn (Char.ofNat 233) 51).length = 51 ∧
    len (strings.TrimSpace ("".pushn (Char.ofNat 233) 51)) = 102 ∧
    service.validateNewUserData (some { testUser with Name := "".pushn (Char.ofNat 233) 51 })
      = some NameTooLong :=
  ⟨fun _ => rfl, by decide, by decide, by decide, by decide, by decide, by decide, by decide⟩
